import Mathlib

/-!
Verification development for the Financial_Competition repository.

This file gives a shallow embedding, in Lean 4, of the parts of the
repository that the specification's claims talk about:

* the session state machine (`src/agent/session.py`),
* the confirmation workflow (`src/agent/workflow.py`, `confirm_document`),
* the bounded operation-log engines
  (`src/agent/learning.py`, `FeedbackLearner._apply_rule_operations`;
   `src/agent/profile_optimizer.py`, `ProfileOptimizer._apply_profile_operations`),
* the feedback-enrichment filter of `FeedbackLearner.generate_rules`,
* amount and date normalization (`src/agent/core.py`, `_normalize_amount`,
  `_format_date`),
* the upload pipeline (`src/agent/core.py`, `DocumentAgent.process_upload`
  and its stage helpers).

Python machine floats only appear as exact decimal literals parsed from
strings here, so they are modelled by exact rationals (`ℚ`); the decimal
values reached in this file are exactly representable in binary floating
point, so nothing is lost.  Model calls (the `ModelGateway` collaborator of
the spec) are opaque request/response collaborators; they are modelled by an
environment that records, for each call site, either the parsed payload the
code would extract or the exception the call raised.
-/

namespace FinComp

/-! ### Enumerations from `src/models/base.py` -/

/-- `DocumentType` from `src/models/base.py` (values 发票/行程单/小票/收据). -/
inductive DocumentType
  | invoice
  | itinerary
  | receipt_slip
  | receipt
deriving DecidableEq, Repr

/-- String value of a `DocumentType` member, as in the Python `str, Enum`. -/
def DocumentType.value : DocumentType → String
  | .invoice => "发票"
  | .itinerary => "行程单"
  | .receipt_slip => "小票"
  | .receipt => "收据"

/-- `DocumentStatus` from `src/models/base.py`. -/
inductive DocumentStatus
  | verified
  | pending
  | voided
deriving DecidableEq, Repr

/-- The nine `UserCategory` enum values from `src/models/base.py`, in
declaration order (iteration order of `for cat in UserCategory`). -/
def userCategoryValues : List String :=
  ["餐饮消费", "购物消费", "交通出行", "居住相关", "医疗健康",
   "教育文娱", "人情往来", "收入类", "其他支出"]

/-! ### Documents (`BaseDocument` from `src/models/base.py`)

Only the fields used by the claims are carried.  `amount` is an exact
rational standing for the Python float, `user_category` holds the enum
member's string value (or `none` for Python `None`).  The `document_id`
default is the empty string: the Python default is a fresh UUID, which is an
I/O effect outside the shallow embedding; no claim depends on its value. -/

structure Document where
  document_id : String := ""
  user_id : String := ""
  document_type : DocumentType := .receipt_slip
  source_image : String := ""
  ocr_text : Option String := none
  issued_date : Option String := none
  status : Option DocumentStatus := none
  amount : Option ℚ := none
  user_category : Option String := none
  tags : List String := []
  document_type_reasoning : Option String := none
  tag_classification_reasoning : Option String := none
deriving DecidableEq, Repr

/-! ### Session state machine (`src/agent/session.py`) -/

/-- `SessionState` from `src/agent/session.py`. -/
inductive SessionState
  | uploading
  | pending
  | confirmed
  | cancelled
  | error
deriving DecidableEq, Repr

/-- The `Session` dataclass of `src/agent/session.py`, restricted to the
fields the claims mention (timestamps and the cached stage results are
dropped; they never influence a state transition). -/
structure Session where
  state : SessionState := .uploading
  document : Option Document := none
  error : Option String := none
deriving DecidableEq, Repr

/-- The state-mutating operations of `Session`:
`update_state`, `set_error`, `set_pending`, `confirm`, `cancel`. -/
inductive SessionOp
  | update_state (s : SessionState)
  | set_error (e : String)
  | set_pending (doc : Document)
  | confirm
  | cancel
deriving DecidableEq, Repr

/-- One `Session` method call, exactly as coded in `src/agent/session.py`
lines 57–103: every method ends in an unconditional `self.state = ...`
(via `update_state`); no method inspects the current state first. -/
def Session.apply (s : Session) : SessionOp → Session
  | .update_state st => { s with state := st }
  | .set_error e => { s with error := some e, state := .error }
  | .set_pending doc => { s with document := some doc, state := .pending }
  | .confirm => { s with state := .confirmed }
  | .cancel => { s with state := .cancelled }

/-- The state that a given operation writes, independently of the session it
is applied to. -/
def SessionOp.target : SessionOp → SessionState
  | .update_state st => st
  | .set_error _ => .error
  | .set_pending _ => .pending
  | .confirm => .confirmed
  | .cancel => .cancelled

/-- Terminal states named by the spec's state machine section. -/
def SessionState.isTerminal : SessionState → Bool
  | .confirmed => true
  | .cancelled => true
  | .error => true
  | _ => false

/-! ### `AutoEntryWorkflow.confirm_document` (`src/agent/workflow.py`, lines 109–172)

The embedding takes the session looked up for the given id (`none` when
`get_session` misses), the user's current feedback list
(`user.learning_history.feedbacks`), and the optional `modifications` dict.
It returns the boolean result together with the updated session and feedback
list.  A `modifications` value of `none` covers both Python `None` and the
empty dict (both falsy under `if modifications:`). -/

/-- A `ClassificationFeedback` record (`src/models/user/learning.py`),
restricted to the fields `record_classification_change` fills. -/
structure FeedbackRec where
  document_id : String := ""
  original_category : String := ""
  original_user_category : Option String := none
  original_tags : List String := []
  new_category : String := ""
  new_user_category : Option String := none
  new_tags : List String := []
  modification_source : String := "用户手动"
deriving DecidableEq, Repr

/-- The `modifications` dict of `confirm_document`: presence of the
`user_category` key (whose handler is literally `pass` in the source) and
of the `tags` key. -/
structure Modifications where
  user_category : Option String := none
  tags : Option (List String) := none
deriving DecidableEq, Repr

/-- Shallow embedding of `AutoEntryWorkflow.confirm_document`.  The source
returns `False` only when the session is missing or carries no document; it
never inspects `document.status` or `session.state`.  Otherwise it applies
the `tags` modification, appends a feedback record when `modifications` is
truthy, sets the document status to `VERIFIED`, confirms the session and
returns `True`. -/
def confirm_document (session? : Option Session) (feedbacks : List FeedbackRec)
    (modifications : Option Modifications) :
    Bool × Option Session × List FeedbackRec :=
  match session? with
  | none => (false, none, feedbacks)
  | some session =>
    match session.document with
    | none => (false, some session, feedbacks)
    | some document =>
      let original_category := document.user_category
      let original_tags := document.tags
      let document :=
        match modifications with
        | some mods =>
          match mods.tags with
          | some ts => { document with tags := ts }
          | none => document
        | none => document
      let feedbacks :=
        match modifications with
        | some _ =>
          feedbacks ++ [{ document_id := document.document_id,
                          original_category := document.document_type.value,
                          original_user_category := original_category,
                          original_tags := original_tags,
                          new_category := document.document_type.value,
                          new_user_category := document.user_category,
                          new_tags := document.tags,
                          modification_source := "用户手动" }]
        | none => feedbacks
      let document := { document with status := some DocumentStatus.verified }
      let session := ({ session with document := some document }).apply .confirm
      (true, some session, feedbacks)

/-! ### Positional-id parsing shared by the two operation engines

`rule_id`/`profile_id` strings are parsed by
`rule_id.split('_')[-1]` followed by Python `int(...)`; a failed `int`
raises `ValueError`, which the source catches.  `pyInt?` models `int` on
the ASCII strings these ids are made of: optional surrounding whitespace,
optional single sign, then one or more decimal digits. -/

/-- Whitespace-stripping on the character list (Python `str.strip()`; the
whitespace class is the ASCII one, which covers every id and amount string
the repository produces). -/
def stripChars (cs : List Char) : List Char :=
  ((cs.dropWhile Char.isWhitespace).reverse.dropWhile Char.isWhitespace).reverse

/-- Python `s.strip()`. -/
def pyStrip (s : String) : String :=
  ⟨stripChars s.data⟩

/-- Python `s.startswith(pre)`. -/
def pyStartsWith (pre s : String) : Bool :=
  pre.data.isPrefixOf s.data

/-- Python `s.lower()` (ASCII case folding; the engines only compare the
result against the ASCII keywords `add`/`delete`/`modify`/`merge`). -/
def pyLower (s : String) : String :=
  ⟨s.data.map Char.toLower⟩

/-- Python `s.replace(c, "")` for a one-character needle. -/
def pyRemoveChar (c : Char) (s : String) : String :=
  ⟨s.data.filter fun x => x ≠ c⟩

/-- Decimal value of a digit list (most significant first). -/
def digitsVal (cs : List Char) : Nat :=
  cs.foldl (fun a c => a * 10 + (c.toNat - 48)) 0

/-- Python `int(s)` on ASCII input: `some n` on success, `none` where the
Python call raises `ValueError`. -/
def pyInt? (s : String) : Option Int :=
  let cs := stripChars s.data
  match cs with
  | [] => none
  | c :: rest =>
    let digits := if c = '-' ∨ c = '+' then rest else cs
    if digits ≠ [] ∧ digits.all Char.isDigit then
      some (if c = '-' then -(digitsVal digits : Int) else (digitsVal digits : Int))
    else none

/-- Last `_`-separated component of an id, i.e. Python `s.split('_')[-1]`. -/
def lastComponent (s : String) : String :=
  ⟨(s.data.reverse.takeWhile fun c => c ≠ '_').reverse⟩

/-! ### `FeedbackLearner._apply_rule_operations` (`src/agent/learning.py`, lines 422–525) -/

/-- One parsed operation dict as consumed by `_apply_rule_operations`:
`type`, `rule_id`, `rule.rule_text` and `merge_rule_ids`, with the
`dict.get` defaults already in place (absent key ↦ default value, exactly as
`op.get('rule_id', '')` etc. behave). -/
structure RuleOp where
  type : String := ""
  rule_id : String := ""
  rule_text : String := ""
  merge_rule_ids : List String := []
deriving DecidableEq, Repr

/-- The `delete` arm: when `rule_id` starts with `rule_`, the trailing
component is fed to `int`; an in-bounds index pops that entry, an
out-of-bounds one silently does nothing, and a `ValueError` falls back to
removing the first occurrence of a non-empty `rule_text`.  When the id does
not start with `rule_`, the `try` body finishes without doing anything. -/
def ruleDelete (rules : List String) (rule_id : String) (rule_text : String) :
    List String :=
  if pyStartsWith "rule_" rule_id then
    match pyInt? (lastComponent rule_id) with
    | some i =>
      if 0 ≤ i ∧ i < (rules.length : Int) then rules.eraseIdx i.toNat else rules
    | none =>
      if rule_text ≠ "" ∧ rule_text ∈ rules then rules.erase rule_text else rules
  else rules

/-- The `modify` arm: only acts for a non-empty replacement text and an
in-bounds `rule_N` index; every failure mode is a no-op. -/
def ruleModify (rules : List String) (rule_id : String) (new_rule_text : String) :
    List String :=
  if new_rule_text ≠ "" then
    if pyStartsWith "rule_" rule_id then
      match pyInt? (lastComponent rule_id) with
      | some i =>
        if 0 ≤ i ∧ i < (rules.length : Int) then rules.set i.toNat new_rule_text
        else rules
      | none => rules
    else rules
  else rules

/-- Indices harvested by the `merge` arm: ids that start with the given
positional prefix, parse as an integer, and are in bounds of the current
list; every check happens before any removal. -/
def mergeIndices (pre : String) (len : Nat) (ids : List String) : List Nat :=
  ids.filterMap fun rid =>
    if pyStartsWith pre rid then
      match pyInt? (lastComponent rid) with
      | some i => if 0 ≤ i ∧ i < (len : Int) then some i.toNat else none
      | none => none
    else none

/-- Python `sorted(set(xs), reverse=True)` for indices below `len`: the
distinct values in strictly descending order. -/
def sortedDistinctDesc (len : Nat) (xs : List Nat) : List Nat :=
  ((List.range len).filter (· ∈ xs)).reverse

/-- The `merge` arm of the rule variant: remove the harvested indices in
descending order, then unconditionally append the merged text. -/
def ruleMerge (rules : List String) (merge_rule_ids : List String)
    (merged_rule_text : String) : List String :=
  if merge_rule_ids ≠ [] ∧ merged_rule_text ≠ "" then
    let idxs := mergeIndices "rule_" rules.length merge_rule_ids
    if idxs ≠ [] then
      let removed := (sortedDistinctDesc rules.length idxs).foldl
        (fun l i => l.eraseIdx i) rules
      removed ++ [merged_rule_text]
    else rules
  else rules

/-- One iteration of the operation loop of `_apply_rule_operations`. -/
def ruleOpStep (rules : List String) (op : RuleOp) : List String :=
  let t := pyLower op.type
  if t = "add" then
    if op.rule_text ≠ "" then rules ++ [op.rule_text] else rules
  else if t = "delete" then ruleDelete rules op.rule_id op.rule_text
  else if t = "modify" then ruleModify rules op.rule_id op.rule_text
  else if t = "merge" then ruleMerge rules op.merge_rule_ids op.rule_text
  else rules

/-- `FeedbackLearner._apply_rule_operations`: an empty operation list
returns the input untouched (the early `if not operations: return
existing_rules`); otherwise the operations are folded in order and the
result is truncated to its first 20 entries when it exceeds 20. -/
def apply_rule_operations (existing_rules : List String) (operations : List RuleOp) :
    List String :=
  if operations.isEmpty then existing_rules
  else
    let updated_rules := operations.foldl ruleOpStep existing_rules
    if updated_rules.length > 20 then updated_rules.take 20 else updated_rules

/-! ### `ProfileOptimizer._apply_profile_operations` (`src/agent/profile_optimizer.py`, lines 426–503) -/

/-- One parsed operation dict of the profile variant: `type`, `profile_id`,
`profile_item.text` and `merge_profile_ids` with `dict.get` defaults. -/
structure ProfileOp where
  type : String := ""
  profile_id : String := ""
  text : String := ""
  merge_profile_ids : List String := []
deriving DecidableEq, Repr

/-- One iteration of the `_apply_profile_operations` loop: `add` appends a
non-empty text only when absent (duplicate guard), `delete` mirrors the rule
variant but with no text fallback (the `except` only logs), `merge` appends
the merged text only when absent; every other `type` is ignored. -/
def profileOpStep (profile : List String) (op : ProfileOp) : List String :=
  let t := pyLower op.type
  if t = "add" then
    if op.text ≠ "" ∧ op.text ∉ profile then profile ++ [op.text] else profile
  else if t = "delete" then
    if pyStartsWith "profile_" op.profile_id then
      match pyInt? (lastComponent op.profile_id) with
      | some i =>
        if 0 ≤ i ∧ i < (profile.length : Int) then profile.eraseIdx i.toNat
        else profile
      | none => profile
    else profile
  else if t = "merge" then
    if op.merge_profile_ids ≠ [] ∧ op.text ≠ "" then
      let idxs := mergeIndices "profile_" profile.length op.merge_profile_ids
      if idxs ≠ [] then
        let removed := (sortedDistinctDesc profile.length idxs).foldl
          (fun l i => l.eraseIdx i) profile
        if op.text ∉ removed then removed ++ [op.text] else removed
      else profile
    else profile
  else profile

/-- `ProfileOptimizer._apply_profile_operations`: a plain fold, with no
early return and no length cap. -/
def apply_profile_operations (current_profile : List String)
    (operations : List ProfileOp) : List String :=
  operations.foldl profileOpStep current_profile

/-! ### The feedback-enrichment filter of `FeedbackLearner.generate_rules`
(`src/agent/learning.py`, lines 154–175)

For each selected feedback the source loads its document
(`user_storage.load_document`); a missing document (or a load exception)
skips the feedback, and a loaded one is kept only after the check
`if not document_type_reasoning or not tag_classification_reasoning:
continue`, where each reasoning is `getattr(document, ..., None) or ''`. -/

/-- One entry of the `enriched_feedbacks` list built by `generate_rules`. -/
structure EnrichedFeedback where
  feedback : FeedbackRec
  ocr_text : Option String
  document_type_reasoning : String
  tag_classification_reasoning : String
deriving DecidableEq, Repr

/-- The enrichment loop of `generate_rules`.  `load_document` stands for the
storage collaborator: `none` covers both a `None` return and a raised
exception (both branches skip the feedback). -/
def enrich_feedbacks (load_document : String → Option Document) :
    List FeedbackRec → List EnrichedFeedback
  | [] => []
  | fb :: rest =>
    match load_document fb.document_id with
    | none => enrich_feedbacks load_document rest
    | some document =>
      let dtr := document.document_type_reasoning.getD ""
      let tcr := document.tag_classification_reasoning.getD ""
      if dtr = "" ∨ tcr = "" then enrich_feedbacks load_document rest
      else
        { feedback := fb, ocr_text := document.ocr_text,
          document_type_reasoning := dtr,
          tag_classification_reasoning := tcr } :: enrich_feedbacks load_document rest

/-- The keep-condition of the enrichment loop, spelled out: the document
loads and both reasoning strings are non-empty. -/
def feedbackKept (load_document : String → Option Document) (fb : FeedbackRec) :
    Bool :=
  match load_document fb.document_id with
  | none => false
  | some document =>
    document.document_type_reasoning.getD "" ≠ "" ∧
      document.tag_classification_reasoning.getD "" ≠ ""

/-! ### Amount normalization (`src/agent/core.py`, `_normalize_amount`, lines 43–60)

The string branch of `_normalize_amount` is embedded (`None` returns `none`
and numeric inputs are returned unchanged; claims quantify over strings).
The source strips `￥` and `,`, trims whitespace, and takes the leftmost
match of the regex `[-+]?\d+(?:\.\d+)?`, converting it with `float`.  The
matched text is an exact decimal numeral, modelled by its exact rational
value. -/

/-- The cleaning step: `value.replace("￥", "").replace(",", "").strip()`. -/
def cleanAmount (s : String) : String :=
  pyStrip (pyRemoveChar ',' (pyRemoveChar '￥' s))

/-- Match of `[-+]?\d+(?:\.\d+)?` anchored at the start of `cs`: optional
sign, a maximal non-empty digit run, then optionally a dot followed by a
non-empty digit run. -/
def matchNumberAt (cs : List Char) : Option (List Char) :=
  let p := match cs with
    | c :: r => if c = '+' ∨ c = '-' then ([c], r) else (([] : List Char), cs)
    | [] => ([], [])
  let ds := p.2.takeWhile Char.isDigit
  let cs2 := p.2.drop ds.length
  if ds = [] then none
  else
    match cs2 with
    | '.' :: r =>
      let fs := r.takeWhile Char.isDigit
      if fs = [] then some (p.1 ++ ds) else some (p.1 ++ ds ++ '.' :: fs)
    | _ => some (p.1 ++ ds)

/-- `re.search` for the number regex: try each start position left to
right, returning the first (leftmost) match. -/
def searchNumber : List Char → Option (List Char)
  | [] => none
  | c :: rest =>
    match matchNumberAt (c :: rest) with
    | some m => some m
    | none => searchNumber rest

/-- Exact rational value of a matched numeral (Python `float(match.group())`;
the numerals produced by `matchNumberAt` always convert without error). -/
def decValue (cs : List Char) : ℚ :=
  let p := match cs with
    | c :: r =>
      if c = '-' then ((-1 : ℚ), r) else if c = '+' then ((1 : ℚ), r) else (1, cs)
    | [] => (1, [])
  let ds := p.2.takeWhile Char.isDigit
  let rest := p.2.drop ds.length
  let frac : ℚ :=
    match rest with
    | '.' :: r =>
      let fs := r.takeWhile Char.isDigit
      (digitsVal fs : ℚ) / ((10 : ℚ) ^ fs.length)
    | _ => 0
  p.1 * ((digitsVal ds : ℚ) + frac)

/-- String branch of `_normalize_amount`. -/
def normalize_amount (s : String) : Option ℚ :=
  let cleaned := cleanAmount s
  if cleaned = "" then none
  else (searchNumber cleaned.toList).map fun m => decValue m

/-- Modelled from the spec's words (for comparison with `normalize_amount`,
which is the embedding of the source): "discard non-numeric characters
except a single leading sign and decimal point, then parse as a float",
returning null when no numeric content remains. -/
def spec_amount_normalize (s : String) : Option ℚ :=
  let cs := s.toList
  let p := match cs with
    | c :: r => if c = '+' ∨ c = '-' then ([c], r) else (([] : List Char), cs)
    | [] => ([], [])
  let kept := p.2.filter fun c => c.isDigit ∨ c = '.'
  if kept.any Char.isDigit then some (decValue (p.1 ++ kept)) else none

/-! ### Date normalization (`src/agent/core.py`, `_format_date`, lines 63–96)

The string branch of `_format_date` tries eleven `datetime.strptime`
formats in order and, when all fail, a loose regex with `re.search`:
year `20\d\d`, then an optional separator (dash, slash or 年), a one- or
two-digit month, an optional separator (dash, slash or 月), and a one- or
two-digit day.
CPython's `strptime` compiles each format directive to a regular
expression (`%Y` ↦ `\d{4}`, `%m` ↦ `1[0-2]|0[1-9]|[1-9]`,
`%d` ↦ `3[01]|[12]\d|0[1-9]|[1-9]`, `%H` ↦ `2[0-3]|[0-1]\d|\d`,
`%M`/`%S` ↦ `[0-5]\d|\d` resp. `6[0-1]|[0-5]\d|\d`, `%f` ↦
`[0-9]{1,6}`, whitespace ↦ `\s+`, other characters literal), requires
the whole string to be consumed, takes the first match in backtracking
order and then validates the calendar date (raising `ValueError`, which the
caller catches, for e.g. February 30th).  The embedding reproduces the
alternation orders, so backtracking agrees with CPython's regex engine. -/

/-- `strptime` format directives appearing in the candidate formats. -/
inductive FmtDir
  | lit (c : Char)
  | ws
  | yY
  | mo
  | dd
  | hH
  | mM
  | sS
  | fF
deriving DecidableEq, Repr

/-- Translation of a format string into directives (`%Y`, `%m`, `%d`, `%H`,
`%M`, `%S`, `%f`; a space becomes the `\s+` matcher; everything else is a
literal). -/
def fmtToDirs : List Char → List FmtDir
  | '%' :: c :: rest =>
    (if c = 'Y' then FmtDir.yY
     else if c = 'm' then FmtDir.mo
     else if c = 'd' then FmtDir.dd
     else if c = 'H' then FmtDir.hH
     else if c = 'M' then FmtDir.mM
     else if c = 'S' then FmtDir.sS
     else if c = 'f' then FmtDir.fF
     else FmtDir.lit c) :: fmtToDirs rest
  | ' ' :: rest => FmtDir.ws :: fmtToDirs rest
  | c :: rest => FmtDir.lit c :: fmtToDirs rest
  | [] => []

/-- Value of an ASCII digit character. -/
def digitVal (c : Char) : Nat := c.toNat - 48

/-- Alternatives of one directive on the given input, in the backtracking
order of the compiled regex: each alternative yields the captured value (or
`none` for non-capturing directives) and the remaining input. -/
def dirAlts : FmtDir → List Char → List (Option Nat × List Char)
  | .lit c, x :: r => if x = c then [(none, r)] else []
  | .lit _, [] => []
  | .ws, cs =>
    let sp := cs.takeWhile Char.isWhitespace
    if sp = [] then [] else [(none, cs.drop sp.length)]
  | .yY, c1 :: c2 :: c3 :: c4 :: r =>
    if c1.isDigit ∧ c2.isDigit ∧ c3.isDigit ∧ c4.isDigit then
      [(some (digitsVal [c1, c2, c3, c4]), r)]
    else []
  | .yY, _ => []
  | .mo, cs =>
    (match cs with
     | '1' :: c :: r =>
       if '0' ≤ c ∧ c ≤ '2' then [(some (10 + digitVal c), r)] else []
     | _ => []) ++
    (match cs with
     | '0' :: c :: r =>
       if '1' ≤ c ∧ c ≤ '9' then [(some (digitVal c), r)] else []
     | _ => []) ++
    (match cs with
     | c :: r => if '1' ≤ c ∧ c ≤ '9' then [(some (digitVal c), r)] else []
     | _ => [])
  | .dd, cs =>
    (match cs with
     | '3' :: c :: r =>
       if '0' ≤ c ∧ c ≤ '1' then [(some (30 + digitVal c), r)] else []
     | _ => []) ++
    (match cs with
     | c1 :: c2 :: r =>
       if ('1' ≤ c1 ∧ c1 ≤ '2') ∧ c2.isDigit then
         [(some (10 * digitVal c1 + digitVal c2), r)]
       else []
     | _ => []) ++
    (match cs with
     | '0' :: c :: r =>
       if '1' ≤ c ∧ c ≤ '9' then [(some (digitVal c), r)] else []
     | _ => []) ++
    (match cs with
     | c :: r => if '1' ≤ c ∧ c ≤ '9' then [(some (digitVal c), r)] else []
     | _ => [])
  | .hH, cs =>
    (match cs with
     | '2' :: c :: r =>
       if '0' ≤ c ∧ c ≤ '3' then [(some (20 + digitVal c), r)] else []
     | _ => []) ++
    (match cs with
     | c1 :: c2 :: r =>
       if ('0' ≤ c1 ∧ c1 ≤ '1') ∧ c2.isDigit then
         [(some (10 * digitVal c1 + digitVal c2), r)]
       else []
     | _ => []) ++
    (match cs with
     | c :: r => if c.isDigit then [(some (digitVal c), r)] else []
     | _ => [])
  | .mM, cs =>
    (match cs with
     | c1 :: c2 :: r =>
       if ('0' ≤ c1 ∧ c1 ≤ '5') ∧ c2.isDigit then
         [(some (10 * digitVal c1 + digitVal c2), r)]
       else []
     | _ => []) ++
    (match cs with
     | c :: r => if c.isDigit then [(some (digitVal c), r)] else []
     | _ => [])
  | .sS, cs =>
    (match cs with
     | '6' :: c :: r =>
       if '0' ≤ c ∧ c ≤ '1' then [(some (60 + digitVal c), r)] else []
     | _ => []) ++
    (match cs with
     | c1 :: c2 :: r =>
       if ('0' ≤ c1 ∧ c1 ≤ '5') ∧ c2.isDigit then
         [(some (10 * digitVal c1 + digitVal c2), r)]
       else []
     | _ => []) ++
    (match cs with
     | c :: r => if c.isDigit then [(some (digitVal c), r)] else []
     | _ => [])
  | .fF, cs =>
    let ds := cs.takeWhile Char.isDigit
    (List.range 6).reverse.filterMap fun j =>
      let k := j + 1
      if k ≤ ds.length ∧ k ≤ 6 then some (some (digitsVal (ds.take k)), cs.drop k)
      else none

/-- The year/month/day triple recovered by `strptime` (its defaults are
1900-01-01; only these three fields reach `strftime("%Y/%m/%d")`). -/
structure PDate where
  y : Nat := 1900
  m : Nat := 1
  d : Nat := 1
deriving DecidableEq, Repr

/-- Run a directive list over the input, requiring full consumption; the
result lists every complete match in backtracking order. -/
def runDirs : List FmtDir → List Char → PDate → List PDate
  | [], cs, pd => if cs.isEmpty then [pd] else []
  | dir :: ds, cs, pd =>
    (dirAlts dir cs).flatMap fun alt =>
      let pd' :=
        match dir, alt.1 with
        | .yY, some v => { pd with y := v }
        | .mo, some v => { pd with m := v }
        | .dd, some v => { pd with d := v }
        | _, _ => pd
      runDirs ds alt.2 pd'

/-- Leap-year test of the Gregorian calendar (as in CPython's `datetime`). -/
def leapYear (y : Nat) : Bool :=
  y % 4 = 0 ∧ (y % 100 ≠ 0 ∨ y % 400 = 0)

/-- Days in a month, as validated by the `datetime` constructor. -/
def daysInMonth (y m : Nat) : Nat :=
  if m = 2 then (if leapYear y then 29 else 28)
  else if m = 4 ∨ m = 6 ∨ m = 9 ∨ m = 11 then 30
  else 31

/-- The validation performed by the `datetime` constructor (`MINYEAR = 1`,
`MAXYEAR = 9999`); a failure raises the `ValueError` the caller catches. -/
def validDate (pd : PDate) : Bool :=
  1 ≤ pd.y ∧ pd.y ≤ 9999 ∧ 1 ≤ pd.m ∧ pd.m ≤ 12 ∧ 1 ≤ pd.d ∧
    pd.d ≤ daysInMonth pd.y pd.m

/-- `datetime.strptime(s, fmt)` restricted to the recovered date: the first
full match in backtracking order, if it passes calendar validation. -/
def strptimeYMD (fmt : String) (s : String) : Option PDate :=
  match runDirs (fmtToDirs fmt.toList) s.toList {} with
  | [] => none
  | pd :: _ => if validDate pd then some pd else none

/-- The eleven candidate formats of `_format_date`, in source order. -/
def dateCandidates : List String :=
  ["%Y-%m-%d", "%Y/%m/%d", "%Y%m%d",
   "%Y-%m-%d %H:%M:%S", "%Y/%m/%d %H:%M:%S",
   "%Y-%m-%d %H:%M", "%Y/%m/%d %H:%M",
   "%Y-%m-%dT%H:%M:%S", "%Y-%m-%dT%H:%M:%S.%f",
   "%Y/%m/%dT%H:%M:%S", "%Y/%m/%dT%H:%M:%S.%f"]

/-- The `for fmt in candidates` loop: first format that parses (a
`ValueError` from either matching or validation falls through to the next
candidate). -/
def tryCandidates : List String → String → Option PDate
  | [], _ => none
  | fmt :: rest, s =>
    match strptimeYMD fmt s with
    | some pd => some pd
    | none => tryCandidates rest s

/-- Zero-padding to two digits (`%m`/`%d` of `strftime`, and the `:02d`
format of the fallback; both arguments are below 100 wherever used). -/
def pad2 (n : Nat) : String :=
  if n < 10 then "0" ++ toString n else toString n

/-- Zero-padding to four digits (the `:04d` format of the fallback). -/
def pad4 (n : Nat) : String :=
  if n < 10 then "000" ++ toString n
  else if n < 100 then "00" ++ toString n
  else if n < 1000 then "0" ++ toString n
  else toString n

/-- `parsed.strftime("%Y/%m/%d")`: the year in decimal (glibc does not
zero-pad `%Y`), month and day zero-padded to two digits. -/
def strftimeYMD (pd : PDate) : String :=
  toString pd.y ++ "/" ++ pad2 pd.m ++ "/" ++ pad2 pd.d

/-- One separator of the fallback regex (an optional dash, slash, 年 or 月
character class): the greedy optional match first tries to consume one such
character. -/
def sepAlts (extra : Char) (cs : List Char) : List (List Char) :=
  match cs with
  | c :: r => if c = '-' ∨ c = '/' ∨ c = extra then [r, cs] else [cs]
  | [] => [cs]

/-- `\d{1,2}` greedy: two digits first, then one. -/
def twoOrOneDigits (cs : List Char) : List (Nat × List Char) :=
  (match cs with
   | c1 :: c2 :: r =>
     if c1.isDigit ∧ c2.isDigit then [(10 * digitVal c1 + digitVal c2, r)] else []
   | _ => []) ++
  (match cs with
   | c :: r => if c.isDigit then [(digitVal c, r)] else []
   | _ => [])

/-- The fallback regex anchored at a position: `20\d{2}` then the optional
separators and one-or-two-digit month and day, with the first success in
backtracking order; the remainder of the string is not required to match. -/
def fallbackAt (cs : List Char) : Option (Nat × Nat × Nat) :=
  match cs with
  | '2' :: '0' :: c3 :: c4 :: rest =>
    if c3.isDigit ∧ c4.isDigit then
      let y := 2000 + 10 * digitVal c3 + digitVal c4
      (sepAlts '年' rest).findSome? fun r1 =>
        (twoOrOneDigits r1).findSome? fun p1 =>
          (sepAlts '月' p1.2).findSome? fun r2 =>
            (twoOrOneDigits r2).findSome? fun p2 =>
              some (y, p1.1, p2.1)
    else none
  | _ => none

/-- `re.search` for the fallback regex: leftmost starting position wins. -/
def fallbackSearch : List Char → Option (Nat × Nat × Nat)
  | [] => none
  | c :: rest =>
    match fallbackAt (c :: rest) with
    | some t => some t
    | none => fallbackSearch rest

/-- String branch of `_format_date`: strip, try the candidate formats in
order and format the hit with `strftime("%Y/%m/%d")`; otherwise run the
fallback regex and format its groups with `f"{y:04d}/{m:02d}/{d:02d}"`;
otherwise `None`. -/
def format_date (value : String) : Option String :=
  let cleaned := pyStrip value
  if cleaned = "" then none
  else
    match tryCandidates dateCandidates cleaned with
    | some pd => some (strftimeYMD pd)
    | none =>
      match fallbackSearch cleaned.toList with
      | some t => some (pad4 t.1 ++ "/" ++ pad2 t.2.1 ++ "/" ++ pad2 t.2.2)
      | none => none

/-! ### The upload pipeline (`src/agent/core.py`, `DocumentAgent.process_upload`)

Each model call plus its lenient response parse is an opaque collaborator;
the `ModelEnv` record holds, per call site, either the payload the code
would extract from the response (with `dict.get` absences as `none`) or the
exception the call raised.  `process_upload` returns the `ProcessResult`
together with the list of model calls issued, in order, so that claims
about "no further model call" are statable. -/

/-- `ClassificationResult` dataclass of `src/agent/core.py`. -/
structure ClassificationR where
  status : Bool
  user_category : String := ""
  professional_category : String := ""
  tags : List String := []
  reasoning : String := ""
deriving DecidableEq, Repr

/-- `IntentResult` dataclass of `src/agent/core.py`. -/
structure IntentR where
  analysis : String := ""
  key_information : String := ""
  has_explicit_classification : Bool := false
deriving DecidableEq, Repr

/-- A structured-data value: a JSON number (exact rational), a string, or
anything else (`null`, lists, objects — all treated alike by the two
normalizers, which only branch on number/string). -/
inductive StructVal
  | num (q : ℚ)
  | str (s : String)
  | other
deriving DecidableEq, Repr

/-- `RecognitionResult` dataclass of `src/agent/core.py`. -/
structure RecognitionR where
  is_valid_document : Bool
  document_type : Option String := none
  user_category : Option String := none
  markdown_content : String := ""
  reason : String := ""
  structured_data : List (String × StructVal) := []
deriving DecidableEq, Repr

/-- Parsed payload of the text-classification response. -/
structure ClsPayload where
  professional_category : Option String := none
  user_category : Option String := none
  reasoning : Option String := none
deriving DecidableEq, Repr

/-- Parsed payload of the intent-recognition response. -/
structure IntentPayload where
  analysis : Option String := none
  has_explicit_classification : Option Bool := none
  information_extraction : Option String := none
deriving DecidableEq, Repr

/-- Parsed payload of the tag-classification response. -/
structure TagPayload where
  tags : Option (List String) := none
  reasoning : Option String := none
deriving DecidableEq, Repr

/-- Outcomes of the model calls a single `process_upload` run can issue:
either the parsed payload or the raised exception's message. -/
structure ModelEnv where
  transcribe : Except String String
  check_response : Except String (Option Bool × Option String)
  recognize_response : Except String String
  classify_response : Except String ClsPayload
  intent_response : Except String IntentPayload
  tag_response : Except String TagPayload
  structure_response : Except String (Option (List (String × StructVal)))
deriving Repr

/-- The model-call sites of one pipeline run, used for the issued-call
trace. -/
inductive MCall
  | transcribeAudio
  | checkVision
  | recognizeVision
  | classifyText
  | intentText
  | tagText
  | structureText
deriving DecidableEq, Repr

/-- Python `x or default` for an optional string (`None` and `""` are both
falsy). -/
def pyOrStr (v : Option String) (dflt : String) : String :=
  match v with
  | some s => if s = "" then dflt else s
  | none => dflt

/-- Truthiness of an optional string (`if text:`). -/
def optTruthy (v : Option String) : Bool :=
  match v with
  | some s => s ≠ ""
  | none => false

/-- `DocumentAgent._check_if_document`: returns the parsed
`(is_document, reason)` pair (with `get` defaults `False` and `""`); an
exception from the vision call is caught and becomes
`(False, "判断异常: " + str(e))`. -/
def check_if_document (env : ModelEnv) : Bool × String :=
  match env.check_response with
  | .ok p => (p.1.getD false, p.2.getD "")
  | .error e => (false, "判断异常: " ++ e)

/-- `DocumentAgent._recognize_document`: a successful vision call yields a
valid result carrying the extracted markdown; an exception is caught and
becomes an invalid result with reason `识别异常: ...` (it does not abort the
pipeline). -/
def recognize_document (env : ModelEnv) : RecognitionR :=
  match env.recognize_response with
  | .ok md => { is_valid_document := true, markdown_content := md }
  | .error e => { is_valid_document := false, reason := "识别异常: " ++ e }

/-- `DocumentAgent._classify_document_with_text`: the whole body is inside
`try/except Exception`, so a failing model call is absorbed into a default
classification (status `False`, 小票/其他支出) rather than re-raised. -/
def classify_document_with_text (env : ModelEnv) : ClassificationR :=
  match env.classify_response with
  | .ok p =>
    { status := true,
      professional_category := p.professional_category.getD "小票",
      user_category := p.user_category.getD "其他支出",
      tags := [],
      reasoning := p.reasoning.getD "" }
  | .error e =>
    { status := false,
      professional_category := "小票",
      user_category := "其他支出",
      tags := [],
      reasoning := "分类失败，使用默认值: " ++ e }

/-- `DocumentAgent._parse_user_intent`: likewise fully guarded; a failing
call is absorbed into an empty `IntentResult`. -/
def parse_user_intent (env : ModelEnv) : IntentR :=
  match env.intent_response with
  | .ok p =>
    { analysis := p.analysis.getD "",
      has_explicit_classification := p.has_explicit_classification.getD false,
      key_information := p.information_extraction.getD "" }
  | .error _ =>
    { analysis := "", key_information := "", has_explicit_classification := false }

/-- `DocumentAgent._classify_document` (the tag stage).  The intent argument
only feeds the prompt text, which is outside the embedding.  The enum
round-trip `UserCategory(user_category)` falls back to 其他支出 on
`ValueError`; a failing model call is absorbed into an empty-tag default
result built from the raw recognition fields. -/
def classify_document (env : ModelEnv) (recognition : RecognitionR)
    (_intent : Option IntentR) : ClassificationR :=
  let user_category0 := pyOrStr recognition.user_category "其他支出"
  let user_category :=
    if user_category0 ∈ userCategoryValues then user_category0 else "其他支出"
  match env.tag_response with
  | .ok p =>
    { status := true,
      user_category := user_category,
      professional_category := pyOrStr recognition.document_type "小票",
      tags := p.tags.getD [],
      reasoning := p.reasoning.getD "" }
  | .error e =>
    { status := false,
      user_category := pyOrStr recognition.user_category "其他支出",
      professional_category := pyOrStr recognition.document_type "小票",
      tags := [],
      reasoning := "子标签添加失败，使用默认值: " ++ e }

/-- `DocumentAgent._structure_document`: a failing call re-raises
(structuring failure is fatal); a successful one yields
`result_data.get('structured_data', {})`. -/
def structure_document (env : ModelEnv) :
    Except String (List (String × StructVal)) :=
  match env.structure_response with
  | .ok o => .ok (o.getD [])
  | .error e => .error e

/-- The `asyncio.gather(..., return_exceptions=True)` result handler of
stage 4: an exception in the classification slot re-raises, an exception in
the intent slot degrades to `None`. -/
def fanOutHandle (cls_task : Except String ClassificationR)
    (intent_task : Except String IntentR) :
    Except String (ClassificationR × Option IntentR) :=
  match cls_task with
  | .error e => .error e
  | .ok c =>
    match intent_task with
    | .error _ => .ok (c, none)
    | .ok i => .ok (c, some i)

/-- The `doc_type_map` lookup of `_create_document` with its
`RECEIPT_SLIP` default. -/
def doc_type_map (s : String) : DocumentType :=
  if s = "发票" then .invoice
  else if s = "行程单" then .itinerary
  else if s = "小票" then .receipt_slip
  else if s = "收据" then .receipt
  else .receipt_slip

/-- `dict.get` on the structured-data mapping. -/
def lookupStruct (sd : List (String × StructVal)) (k : String) :
    Option StructVal :=
  (sd.find? fun p => p.1 = k).map fun p => p.2

/-- `_normalize_amount` on an arbitrary structured value (`None` and
non-string, non-numeric values yield `None`; numbers are returned as
floats; strings go through the string branch). -/
def normalize_amount_any (v : Option StructVal) : Option ℚ :=
  match v with
  | some (.num q) => some q
  | some (.str s) => normalize_amount s
  | _ => none

/-- `_format_date` on an arbitrary structured value (only the string branch
can fire here; the `datetime` branch cannot arise from parsed JSON). -/
def format_date_any (v : Option StructVal) : Option String :=
  match v with
  | some (.str s) => format_date s
  | _ => none

/-- Amount candidate keys of `_create_document`, in priority order. -/
def amountKeys : List String :=
  ["total_amount", "total_amount_including_tax",
   "total_amount_excluding_tax", "amount_in_digits"]

/-- Date candidate keys of `_create_document`, per document type. -/
def dateKeys : DocumentType → List String
  | .invoice => ["issue_date"]
  | .itinerary => ["departure_datetime", "departure_date"]
  | .receipt_slip => ["transaction_datetime", "transaction_date"]
  | .receipt => ["issue_date"]

/-- `DocumentAgent._create_document`.  `upload_time` (an I/O clock read)
and the dynamically attached `structured_data` attribute are not carried:
no claim mentions them.  The first amount key whose value normalizes wins;
the first date key whose value formats to a (necessarily non-empty) string
wins. -/
def create_document (user_id : String) (recognition : RecognitionR)
    (classification : ClassificationR)
    (structured_values : List (String × StructVal)) (image_path : String)
    (document_type_reasoning : Option String)
    (tag_classification_reasoning : Option String) : Document :=
  let document_type := doc_type_map classification.professional_category
  let user_category :=
    if classification.user_category ∈ userCategoryValues then
      some classification.user_category
    else none
  let amount := amountKeys.findSome? fun k =>
    normalize_amount_any (lookupStruct structured_values k)
  let issued_date := (dateKeys document_type).findSome? fun k =>
    format_date_any (lookupStruct structured_values k)
  { user_id := user_id,
    document_type := document_type,
    source_image := image_path,
    ocr_text := some recognition.markdown_content,
    status := some DocumentStatus.pending,
    user_category := user_category,
    tags := classification.tags,
    amount := amount,
    issued_date := issued_date,
    document_type_reasoning := document_type_reasoning,
    tag_classification_reasoning := tag_classification_reasoning }

/-- `ProcessResult` dataclass of `src/agent/core.py`. -/
structure ProcessResultR where
  success : Bool
  error : Option String := none
  document : Option Document := none
  document_id : Option String := none
  recognition : Option RecognitionR := none
  classification : Option ClassificationR := none
  intent : Option IntentR := none
  is_invalid_image : Bool := false
deriving DecidableEq, Repr

/-- `process_upload` from the relevance check on (steps 2–7), carrying the
calls issued so far.  The exception branches of the stage-4 handler and of
the structuring stage surface as the generic failure result the top-level
`except Exception` builds. -/
def processFromCheck (env : ModelEnv) (user_id image_path : String)
    (text : Option String) (calls0 : List MCall) :
    ProcessResultR × List MCall :=
  let p := check_if_document env
  let calls := calls0 ++ [MCall.checkVision]
  if ¬ p.1 then
    ({ success := false,
       error := some ("上传的图片不是票据: " ++ p.2),
       is_invalid_image := true }, calls)
  else
    let recognition := recognize_document env
    let calls := calls ++ [MCall.recognizeVision]
    let fan : Except String (ClassificationR × Option IntentR) × List MCall :=
      if optTruthy text then
        (fanOutHandle (Except.ok (classify_document_with_text env))
           (Except.ok (parse_user_intent env)),
         calls ++ [MCall.classifyText, MCall.intentText])
      else
        (Except.ok (classify_document_with_text env, none),
         calls ++ [MCall.classifyText])
    match fan.1 with
    | .error e => ({ success := false, error := some e }, fan.2)
    | .ok tc =>
      let text_classification := tc.1
      let intent := tc.2
      let recognition :=
        { recognition with
          document_type := some text_classification.professional_category,
          user_category := some text_classification.user_category }
      let classification0 := classify_document env recognition intent
      let calls := fan.2 ++ [MCall.tagText]
      let document_type_reasoning := text_classification.reasoning
      let tag_classification_reasoning := classification0.reasoning
      let classification :=
        if text_classification.reasoning ≠ "" then
          if classification0.reasoning ≠ "" then
            { classification0 with
              reasoning := text_classification.reasoning ++ "\n\n子标签推理：" ++
                classification0.reasoning }
          else { classification0 with reasoning := text_classification.reasoning }
        else classification0
    match structure_document env with
      | .error e => ({ success := false, error := some e },
          calls ++ [MCall.structureText])
      | .ok structured_values =>
        let recognition :=
          { recognition with structured_data := structured_values }
        let document := create_document user_id recognition classification
          structured_values image_path (some document_type_reasoning)
          (some tag_classification_reasoning)
        ({ success := true,
           document := some document,
           document_id := some document.document_id,
           recognition := some recognition,
           classification := some classification,
           intent := intent }, calls ++ [MCall.structureText])

/-- `DocumentAgent.process_upload`: step 1 transcribes when audio is
present and the text is falsy (a transcription failure re-raises and is
caught by the top-level handler); then steps 2–7. -/
def process_upload (env : ModelEnv) (user_id image_path : String)
    (text0 : Option String) (has_audio : Bool) :
    ProcessResultR × List MCall :=
  if has_audio ∧ ¬ optTruthy text0 then
    match env.transcribe with
    | .error e => ({ success := false, error := some e }, [MCall.transcribeAudio])
    | .ok t =>
      processFromCheck env user_id image_path (some t) [MCall.transcribeAudio]
  else processFromCheck env user_id image_path text0 []

/-! ## Theorems for the claims -/

/-- Claim C6, counterexample.  The claim says that once a session is in a
terminal state (Confirmed, Cancelled or Error) no operation transitions it
to any other state.  It is false: `cancel` moves a Confirmed session to
Cancelled (and the source guards no transition at all). -/
theorem C6_counterexample :
    ((⟨SessionState.confirmed, none, none⟩ : Session).apply SessionOp.cancel).state
        = SessionState.cancelled ∧
      SessionState.confirmed.isTerminal = true ∧
      SessionState.cancelled ≠ SessionState.confirmed := by
  refine ⟨rfl, rfl, by decide⟩

/-- Claim C6 (amended): every `Session` operation writes its target state
unconditionally — the post-state depends only on the operation, never on
the current state, so terminal states are not sticky. -/
theorem C6_amended (s : Session) (op : SessionOp) :
    (s.apply op).state = op.target := by
  cases op <;> rfl

/-- Claim C1, counterexample.  The claim says `confirm_document` returns
false for a session whose document is already Verified.  It is false: the
source never inspects the document status, so confirmation succeeds again
(and re-runs the whole commit path). -/
theorem C1_counterexample :
    (confirm_document
        (some { state := SessionState.pending,
                document := some { status := some DocumentStatus.verified } })
        [] none).1 = true ∧
      (confirm_document
        (some { state := SessionState.pending,
                document := some { status := some DocumentStatus.verified } })
        [] none).2.1 =
        some { state := SessionState.confirmed,
               document := some { status := some DocumentStatus.verified } } := by
  exact ⟨rfl, rfl⟩

/-- Claim C1 (amended): `confirm_document` returns false exactly when the
session is missing or carries no document, and then changes nothing; in
every other case — the document's status (e.g. already Verified) and the
session's state notwithstanding — it returns true, re-marks the document
Verified, re-confirms the session, and appends one more feedback record
whenever a truthy `modifications` dict is passed (so confirmation does
double-apply). -/
theorem C1_amended (fbs : List FeedbackRec) (mods : Option Modifications)
    (s : Session) (d : Document) (h : s.document = some d) :
    confirm_document none fbs mods = (false, none, fbs) ∧
      (∀ s0 : Session, s0.document = none →
        confirm_document (some s0) fbs mods = (false, some s0, fbs)) ∧
      (confirm_document (some s) fbs mods).1 = true ∧
      (∃ s' d', (confirm_document (some s) fbs mods).2.1 = some s' ∧
        s'.state = SessionState.confirmed ∧ s'.document = some d' ∧
        d'.status = some DocumentStatus.verified) ∧
      (mods = none → (confirm_document (some s) fbs mods).2.2 = fbs) ∧
      (∀ m, mods = some m →
        (confirm_document (some s) fbs mods).2.2.length = fbs.length + 1) := by
  refine ⟨rfl, ?_, ?_, ?_, ?_, ?_⟩
  · intro s0 h0
    simp [confirm_document, h0]
  · simp [confirm_document, h]
  · cases mods with
    | none =>
      refine ⟨{ s with document := some { d with status := some DocumentStatus.verified }, state := SessionState.confirmed }, { d with status := some DocumentStatus.verified }, ?_, rfl, rfl, rfl⟩
      simp [confirm_document, h, Session.apply]
    | some m =>
      cases hts : m.tags with
      | none =>
        refine ⟨{ s with document := some { d with status := some DocumentStatus.verified }, state := SessionState.confirmed }, { d with status := some DocumentStatus.verified }, ?_, rfl, rfl, rfl⟩
        simp [confirm_document, h, hts, Session.apply]
      | some ts =>
        refine ⟨{ s with document := some { d with tags := ts, status := some DocumentStatus.verified }, state := SessionState.confirmed }, { d with tags := ts, status := some DocumentStatus.verified }, ?_, rfl, rfl, rfl⟩
        simp [confirm_document, h, hts, Session.apply]
  · intro hm
    simp [confirm_document, h, hm]
  · intro m hm
    simp [confirm_document, h, hm]

/-- Claim C1 (amended), witness at a concrete input. -/
theorem C1_amended_witness :
    confirm_document none [] none = (false, none, []) ∧
      (∀ s0 : Session, s0.document = none →
        confirm_document (some s0) [] none = (false, some s0, [])) ∧
      (confirm_document (some { state := SessionState.pending, document := some {} }) [] none).1 = true ∧
      (∃ s' d', (confirm_document (some { state := SessionState.pending, document := some {} }) [] none).2.1 = some s' ∧
        s'.state = SessionState.confirmed ∧ s'.document = some d' ∧
        d'.status = some DocumentStatus.verified) ∧
      ((none : Option Modifications) = none →
        (confirm_document (some { state := SessionState.pending, document := some {} }) [] none).2.2 = []) ∧
      (∀ m, (none : Option Modifications) = some m →
        (confirm_document (some { state := SessionState.pending, document := some {} }) [] none).2.2.length =
          ([] : List FeedbackRec).length + 1) :=
  C1_amended [] none { state := SessionState.pending, document := some {} } {} rfl

/-- Claim C2, counterexample.  The claim says the rule-variant apply always
returns at most 20 entries, for every input rule list and operation
sequence.  It is false for the empty operation batch: the early return
`if not operations: return existing_rules` skips the cap, so a 21-entry
input comes back with 21 entries. -/
theorem C2_counterexample :
    (apply_rule_operations (List.replicate 21 "r") []).length = 21 ∧
      ¬ (apply_rule_operations (List.replicate 21 "r") []).length ≤ 20 := by
  constructor
  · simp [apply_rule_operations]
  · simp [apply_rule_operations]

/-- Claim C2 (amended): for every non-empty operation batch the
rule-variant apply equals the uncapped fold truncated once, after the whole
batch, to its first 20 entries — in particular the result then has length
at most 20.  (An empty batch returns the input unchanged, even when it is
longer than 20.) -/
theorem C2_amended (existing_rules : List String) (operations : List RuleOp)
    (h : operations ≠ []) :
    apply_rule_operations existing_rules operations =
        (operations.foldl ruleOpStep existing_rules).take 20 ∧
      (apply_rule_operations existing_rules operations).length ≤ 20 := by
  have hne : operations.isEmpty = false := by
    cases operations with
    | nil => exact absurd rfl h
    | cons a l => rfl
  unfold apply_rule_operations
  rw [hne]
  simp only [Bool.false_eq_true, if_false]
  by_cases hlen : (operations.foldl ruleOpStep existing_rules).length > 20
  · rw [if_pos hlen]
    refine ⟨rfl, ?_⟩
    rw [List.length_take]
    omega
  · rw [if_neg hlen]
    have hle : (operations.foldl ruleOpStep existing_rules).length ≤ 20 := by omega
    exact ⟨(List.take_of_length_le hle).symm, hle⟩

/-- Claim C2 (amended), witness at a concrete input. -/
theorem C2_amended_witness :
    apply_rule_operations ["a"] [{ type := "add", rule_text := "b" }] =
        (([{ type := "add", rule_text := "b" }] : List RuleOp).foldl
          ruleOpStep ["a"]).take 20 ∧
      (apply_rule_operations ["a"] [{ type := "add", rule_text := "b" }]).length ≤ 20 :=
  C2_amended ["a"] [{ type := "add", rule_text := "b" }] (by decide)

/-- Dispatch of a `delete` operation to the delete arm of the rule engine. -/
theorem ruleOpStep_delete (rules : List String) (rid rtext : String) :
    ruleOpStep rules { type := "delete", rule_id := rid, rule_text := rtext } =
      ruleDelete rules rid rtext := rfl

/-- Reduction of the delete arm once the positional id parses. -/
theorem ruleDelete_parsed (rules : List String) (rid rtext : String) (i : Int)
    (hpre : pyStartsWith "rule_" rid = true)
    (hidx : pyInt? (lastComponent rid) = some i) :
    ruleDelete rules rid rtext =
      (if 0 ≤ i ∧ i < (rules.length : Int) then rules.eraseIdx i.toNat
       else rules) := by
  unfold ruleDelete
  rw [hpre, if_pos rfl, hidx]

/-- An out-of-bounds positional delete in the rule engine is a silent
no-op. -/
theorem ruleDelete_oob (rules : List String) (rid : String) (i : Nat)
    (hpre : pyStartsWith "rule_" rid = true)
    (hidx : pyInt? (lastComponent rid) = some (i : Int))
    (hge : rules.length ≤ i) :
    ruleDelete rules rid "" = rules := by
  rw [ruleDelete_parsed rules rid "" (i : Int) hpre hidx, if_neg]
  intro hc
  obtain ⟨-, hc2⟩ := hc
  exact absurd (by exact_mod_cast hc2) (by omega)

/-- An in-bounds positional delete in the rule engine removes exactly the
entry at that index. -/
theorem ruleDelete_inbounds (rules : List String) (rid : String) (i : Nat)
    (hpre : pyStartsWith "rule_" rid = true)
    (hidx : pyInt? (lastComponent rid) = some (i : Int))
    (hlt : i < rules.length) :
    ruleDelete rules rid "" = rules.eraseIdx i := by
  rw [ruleDelete_parsed rules rid "" (i : Int) hpre hidx,
    if_pos ⟨Int.natCast_nonneg i, by exact_mod_cast hlt⟩, Int.toNat_natCast]

/-- Reduction of the profile delete arm once the positional id parses. -/
theorem profileDelete_parsed (profile : List String) (pid t : String)
    (ids : List String) (j : Int)
    (hpre : pyStartsWith "profile_" pid = true)
    (hidx : pyInt? (lastComponent pid) = some j) :
    profileOpStep profile
        { type := "delete", profile_id := pid, text := t,
          merge_profile_ids := ids } =
      (if 0 ≤ j ∧ j < (profile.length : Int) then profile.eraseIdx j.toNat
       else profile) := by
  have hred : profileOpStep profile
      { type := "delete", profile_id := pid, text := t,
        merge_profile_ids := ids } =
      (if pyStartsWith "profile_" pid then
        match pyInt? (lastComponent pid) with
        | some i =>
          if 0 ≤ i ∧ i < (profile.length : Int) then profile.eraseIdx i.toNat
          else profile
        | none => profile
      else profile) := rfl
  rw [hred, hpre, if_pos rfl, hidx]

/-- An out-of-bounds positional delete in the profile engine is a silent
no-op. -/
theorem profileDelete_oob (profile : List String) (pid : String) (j : Nat)
    (hpre : pyStartsWith "profile_" pid = true)
    (hidx : pyInt? (lastComponent pid) = some (j : Int))
    (hge : profile.length ≤ j) :
    profileOpStep profile { type := "delete", profile_id := pid } = profile := by
  rw [profileDelete_parsed profile pid "" [] (j : Int) hpre hidx, if_neg]
  intro hc
  obtain ⟨-, hc2⟩ := hc
  exact absurd (by exact_mod_cast hc2) (by omega)

/-- Claim C5, counterexample.  The claim says that deleting index `i` and
then re-deleting the same stale index `i` in one batch removes no
unintended entry.  It is false: on `["a", "b", "c"]`, deleting `rule_1`
twice removes `"b"` and then `"c"` — the entry that shifted into position
1 — whereas a single delete keeps `"c"`. -/
theorem C5_counterexample :
    apply_rule_operations ["a", "b", "c"]
        [{ type := "delete", rule_id := "rule_1" },
         { type := "delete", rule_id := "rule_1" }] = ["a"] ∧
      apply_rule_operations ["a", "b", "c"]
        [{ type := "delete", rule_id := "rule_1" }] = ["a", "c"] ∧
      "c" ∉ (["a"] : List String) := by
  refine ⟨by decide, by decide, by decide⟩

/-- Claim C5 (amended): in both engines an out-of-bounds positional delete
is a silent no-op (the functions are total, so nothing ever throws).
Deleting index `i` and re-deleting the same now-stale `i` is harmless only
when `i` was the last index (the list shrank, so `i` is now out of
bounds); when `i` is still in bounds the second delete removes the entry
that shifted into position `i` — the one originally at `i + 1`. -/
theorem C5_amended (rules profile : List String) (rid pid : String) (i j : Nat)
    (hpre : pyStartsWith "rule_" rid = true)
    (hidx : pyInt? (lastComponent rid) = some (i : Int))
    (hppre : pyStartsWith "profile_" pid = true)
    (hpidx : pyInt? (lastComponent pid) = some (j : Int))
    (hge : rules.length ≤ i) (hj : profile.length ≤ j) :
    ruleDelete rules rid "" = rules ∧
      profileOpStep profile { type := "delete", profile_id := pid } = profile ∧
      (∀ l : List String, i < l.length →
        ruleOpStep l { type := "delete", rule_id := rid } = l.eraseIdx i) ∧
      (∀ l : List String, i + 1 = l.length →
        ruleOpStep (ruleOpStep l { type := "delete", rule_id := rid })
          { type := "delete", rule_id := rid } = l.eraseIdx i) ∧
      (∀ l : List String, i + 1 < l.length →
        ruleOpStep (ruleOpStep l { type := "delete", rule_id := rid })
            { type := "delete", rule_id := rid } = (l.eraseIdx i).eraseIdx i ∧
          (l.eraseIdx i)[i]? = l[i + 1]?) := by
  refine ⟨ruleDelete_oob rules rid i hpre hidx hge,
          profileDelete_oob profile pid j hppre hpidx hj, ?_, ?_, ?_⟩
  · intro l hlt
    rw [ruleOpStep_delete]
    exact ruleDelete_inbounds l rid i hpre hidx hlt
  · intro l hlen
    rw [ruleOpStep_delete l, ruleDelete_inbounds l rid i hpre hidx (by omega),
        ruleOpStep_delete (l.eraseIdx i)]
    apply ruleDelete_oob _ rid i hpre hidx
    rw [List.length_eraseIdx]
    simp only [if_pos (by omega : i < l.length)]
    omega
  · intro l hlt
    constructor
    · rw [ruleOpStep_delete l, ruleDelete_inbounds l rid i hpre hidx (by omega),
          ruleOpStep_delete (l.eraseIdx i)]
      apply ruleDelete_inbounds _ rid i hpre hidx
      rw [List.length_eraseIdx]
      simp only [if_pos (by omega : i < l.length)]
      omega
    · exact List.getElem?_eraseIdx_of_ge l i i (Nat.le_refl i)

/-- Claim C7, counterexample.  The claim says a loaded feedback is
discarded only when its document lacks BOTH reasoning strings, and kept
when at least one is present.  It is false: the source skips a feedback as
soon as EITHER reasoning is missing (`if not document_type_reasoning or
not tag_classification_reasoning: continue`), so a document with only a
type reasoning is discarded. -/
theorem C7_counterexample :
    enrich_feedbacks
        (fun _ => some { document_type_reasoning := some "类型推理依据",
                         tag_classification_reasoning := none })
        [{}] = [] ∧
      (Option.getD (some "类型推理依据") "" ≠ "") := by
  refine ⟨rfl, by decide⟩

/-- Claim C7 (amended): `generate_rules` keeps a feedback record exactly
when its document loads and BOTH the type-reasoning and the tag-reasoning
strings are non-empty; a feedback missing either one is discarded. -/
theorem C7_amended (load : String → Option Document) (fbs : List FeedbackRec) :
    (enrich_feedbacks load fbs).map (fun e => e.feedback) =
      fbs.filter (feedbackKept load) := by
  induction fbs with
  | nil => rfl
  | cons fb rest ih =>
    rw [List.filter_cons]
    cases hld : load fb.document_id with
    | none => simp [enrich_feedbacks, feedbackKept, hld, ih]
    | some d =>
      by_cases h1 : d.document_type_reasoning.getD "" = ""
      · simp [enrich_feedbacks, feedbackKept, hld, h1, ih]
      · by_cases h2 : d.tag_classification_reasoning.getD "" = ""
        · simp [enrich_feedbacks, feedbackKept, hld, h1, h2, ih]
        · simp [enrich_feedbacks, feedbackKept, hld, h1, h2, ih]

/-- A number match never succeeds at the head of an all-non-digit list. -/
theorem matchNumberAt_none_of_nodigit (cs : List Char)
    (h : ∀ c ∈ cs, c.isDigit = false) : matchNumberAt cs = none := by
  cases cs with
  | nil => rfl
  | cons c r =>
    by_cases hs : c = '+' ∨ c = '-'
    · have hr : r.takeWhile Char.isDigit = [] := by
        cases r with
        | nil => rfl
        | cons c2 r2 =>
          refine List.takeWhile_cons_of_neg ?_
          simp [h c2 (by simp)]
      simp only [matchNumberAt, if_pos hs, hr]
      rfl
    · have hr : (c :: r).takeWhile Char.isDigit = [] := by
        refine List.takeWhile_cons_of_neg ?_
        simp [h c (by simp)]
      simp only [matchNumberAt, if_neg hs, hr]
      rfl

/-- A number match does succeed when the head is a digit. -/
theorem matchNumberAt_head_digit (c : Char) (r : List Char)
    (h : c.isDigit = true) : matchNumberAt (c :: r) ≠ none := by
  have hs : ¬ (c = '+' ∨ c = '-') := by
    rintro (rfl | rfl) <;> simp at h
  have hr : (c :: r).takeWhile Char.isDigit = c :: r.takeWhile Char.isDigit :=
    List.takeWhile_cons_of_pos h
  simp only [matchNumberAt, if_neg hs, hr]
  split
  · simp_all
  · split
    · split <;> simp
    · simp

/-- The leftmost number search fails exactly on digit-free input. -/
theorem searchNumber_eq_none_iff (cs : List Char) :
    searchNumber cs = none ↔ ∀ c ∈ cs, c.isDigit = false := by
  induction cs with
  | nil => simp [searchNumber]
  | cons c r ih =>
    unfold searchNumber
    constructor
    · intro h
      cases hm : matchNumberAt (c :: r) with
      | some m => rw [hm] at h; exact absurd h (by simp)
      | none =>
        rw [hm] at h
        intro x hx
        rcases List.mem_cons.mp hx with rfl | hxr
        · by_contra hcd
          exact matchNumberAt_head_digit x r (by simpa using hcd) hm
        · exact (ih.mp h) x hxr
    · intro h
      rw [matchNumberAt_none_of_nodigit (c :: r) h]
      exact ih.mpr fun x hx => h x (List.mem_cons_of_mem c hx)

/-- Claim C8, counterexample.  The claim's general rule — "discard
non-numeric characters except a single leading sign and decimal point and
parse the remainder" — disagrees with the source, which strips only `￥`
and `,` and then takes the leftmost regex match: on `"12a34"` the source
yields 12, while the claimed rule yields 1234. -/
theorem C8_counterexample :
    normalize_amount "12a34" = some 12 ∧
      spec_amount_normalize "12a34" = some 1234 ∧
      (12 : ℚ) ≠ 1234 := by
  refine ⟨?_, ?_, by norm_num⟩
  · simp [normalize_amount, cleanAmount, pyRemoveChar, pyStrip, stripChars,
      searchNumber, matchNumberAt, decValue, digitsVal, List.takeWhile,
      Char.isDigit, List.dropWhile, Char.isWhitespace]
  · simp [spec_amount_normalize, decValue, digitsVal, List.takeWhile,
      Char.isDigit, List.filter]

/-- Claim C8 (amended): amount normalization strips `￥` and `,`, trims
whitespace, and parses the leftmost match of an optionally signed decimal
numeral as a float — so `"￥1,234.50"` yields exactly 1234.50 — and it
returns null exactly when the cleaned string has no digit left (no numeric
content). -/
theorem C8_amended :
    normalize_amount "￥1,234.50" = some ((2469 : ℚ) / 2) ∧
      ∀ s : String,
        (normalize_amount s = none ↔
          ∀ c ∈ (cleanAmount s).toList, c.isDigit = false) := by
  constructor
  · simp [normalize_amount, cleanAmount, pyRemoveChar, pyStrip, stripChars,
      searchNumber, matchNumberAt, decValue, digitsVal, List.takeWhile,
      Char.isDigit, List.dropWhile, Char.isWhitespace]
    norm_num
  · intro s
    unfold normalize_amount
    by_cases hc : cleanAmount s = ""
    · simp [hc]
    · rw [if_neg hc]
      rw [Option.map_eq_none']
      exact searchNumber_eq_none_iff (cleanAmount s).toList

/-- Every month has at most 31 days. -/
theorem daysInMonth_le (y m : Nat) : daysInMonth y m ≤ 31 := by
  unfold daysInMonth
  split
  · split <;> omega
  · split <;> omega

/-- A date delivered by the candidate-format loop passed calendar
validation. -/
theorem tryCandidates_valid (fmts : List String) (s : String) (pd : PDate)
    (h : tryCandidates fmts s = some pd) : validDate pd = true := by
  induction fmts with
  | nil => simp [tryCandidates] at h
  | cons fmt rest ih =>
    unfold tryCandidates at h
    cases hp : strptimeYMD fmt s with
    | none => rw [hp] at h; exact ih h
    | some pd2 =>
      rw [hp] at h
      cases h
      unfold strptimeYMD at hp
      cases hr : runDirs (fmtToDirs fmt.toList) s.toList {} with
      | nil => rw [hr] at hp; exact absurd hp (by simp)
      | cons q qs =>
        rw [hr] at hp
        change (if validDate q = true then some q else none) = some pd at hp
        by_cases hv : validDate q = true
        · rw [if_pos hv] at hp
          cases hp
          exact hv
        · rw [if_neg hv] at hp
          exact absurd hp (by simp)

/-- Decimal digits have value at most 9. -/
theorem digitVal_le (c : Char) (h : c.isDigit = true) : digitVal c ≤ 9 := by
  have hb : 48 ≤ c.toNat ∧ c.toNat ≤ 57 := by
    simp [Char.isDigit] at h
    exact ⟨h.1, h.2⟩
  unfold digitVal
  omega

/-- A one-or-two-digit group of the fallback regex is at most 99. -/
theorem twoOrOneDigits_le (cs : List Char) (p : Nat × List Char)
    (h : p ∈ twoOrOneDigits cs) : p.1 ≤ 99 := by
  unfold twoOrOneDigits at h
  rcases List.mem_append.mp h with h1 | h1
  · cases cs with
    | nil => simp at h1
    | cons c1 t =>
      cases t with
      | nil => simp at h1
      | cons c2 r =>
        change p ∈ (if c1.isDigit = true ∧ c2.isDigit = true then
          [(10 * digitVal c1 + digitVal c2, r)] else []) at h1
        by_cases hd : c1.isDigit = true ∧ c2.isDigit = true
        · rw [if_pos hd] at h1
          simp at h1
          have b1 := digitVal_le c1 hd.1
          have b2 := digitVal_le c2 hd.2
          subst h1
          show 10 * digitVal c1 + digitVal c2 ≤ 99
          omega
        · rw [if_neg hd] at h1
          simp at h1
  · cases cs with
    | nil => simp at h1
    | cons c1 t =>
      change p ∈ (if c1.isDigit = true then [(digitVal c1, t)] else []) at h1
      by_cases hd : c1.isDigit = true
      · rw [if_pos hd] at h1
        simp at h1
        have b1 := digitVal_le c1 hd
        subst h1
        show digitVal c1 ≤ 99
        omega
      · rw [if_neg hd] at h1
        simp at h1

/-- The fallback regex yields a year in 2000–2099 and two-digit-bounded
month and day groups. -/
theorem fallbackAt_bounds (cs : List Char) (t : Nat × Nat × Nat)
    (h : fallbackAt cs = some t) :
    2000 ≤ t.1 ∧ t.1 ≤ 2099 ∧ t.2.1 ≤ 99 ∧ t.2.2 ≤ 99 := by
  unfold fallbackAt at h
  split at h
  · rename_i c3 c4 rest
    split at h
    · rename_i hd
      obtain ⟨r1, hr1, h⟩ := List.exists_of_findSome?_eq_some h
      obtain ⟨p1, hp1, h⟩ := List.exists_of_findSome?_eq_some h
      obtain ⟨r2, hr2, h⟩ := List.exists_of_findSome?_eq_some h
      obtain ⟨p2, hp2, h⟩ := List.exists_of_findSome?_eq_some h
      cases h
      have b3 := digitVal_le c3 hd.1
      have b4 := digitVal_le c4 hd.2
      exact ⟨by omega, by omega, twoOrOneDigits_le r1 p1 hp1,
        twoOrOneDigits_le r2 p2 hp2⟩
    · exact absurd h (by simp)
  · exact absurd h (by simp)

/-- Bounds transported along the leftmost fallback search. -/
theorem fallbackSearch_bounds (cs : List Char) (t : Nat × Nat × Nat)
    (h : fallbackSearch cs = some t) :
    2000 ≤ t.1 ∧ t.1 ≤ 2099 ∧ t.2.1 ≤ 99 ∧ t.2.2 ≤ 99 := by
  induction cs with
  | nil => simp [fallbackSearch] at h
  | cons c rest ih =>
    unfold fallbackSearch at h
    cases hf : fallbackAt (c :: rest) with
    | some t2 =>
      rw [hf] at h
      cases h
      exact fallbackAt_bounds (c :: rest) t hf
    | none =>
      rw [hf] at h
      exact ih h

/-- Zero-padding to four digits is plain decimal for arguments of four or
more digits. -/
theorem pad4_eq_toString (n : Nat) (h : 1000 ≤ n) : pad4 n = toString n := by
  unfold pad4
  rw [if_neg (by omega), if_neg (by omega), if_neg (by omega)]

/-- Claim C9: each of the supported formats `"2024-01-05"`,
`"2024/01/05 10:00:00"` and `"20240105"` normalizes to `"2024/01/05"`;
every successful normalization is of the canonical shape
year `/` two-digit month `/` two-digit day with the time-of-day discarded;
and the result is null exactly when every candidate format and the fallback
regex fail on the stripped input (e.g. `"hello"`). -/
theorem C9_format_date :
    format_date "2024-01-05" = some "2024/01/05" ∧
      format_date "2024/01/05 10:00:00" = some "2024/01/05" ∧
      format_date "20240105" = some "2024/01/05" ∧
      format_date "hello" = none ∧
      (∀ s r, format_date s = some r →
        ∃ y m d, 1 ≤ y ∧ y ≤ 9999 ∧ m ≤ 99 ∧ d ≤ 99 ∧
          r = toString y ++ "/" ++ pad2 m ++ "/" ++ pad2 d) ∧
      (∀ s, format_date s = none ↔
        (pyStrip s = "" ∨
          (tryCandidates dateCandidates (pyStrip s) = none ∧
            fallbackSearch (pyStrip s).toList = none))) := by
  refine ⟨by decide, by decide, by decide, by decide, ?_, ?_⟩
  · intro s r h
    unfold format_date at h
    by_cases hc : pyStrip s = ""
    · rw [if_pos hc] at h
      exact absurd h (by simp)
    · rw [if_neg hc] at h
      cases htc : tryCandidates dateCandidates (pyStrip s) with
      | some pd =>
        rw [htc] at h
        cases h
        have hv := tryCandidates_valid dateCandidates (pyStrip s) pd htc
        simp [validDate] at hv
        have hd31 := daysInMonth_le pd.y pd.m
        exact ⟨pd.y, pd.m, pd.d, hv.1, hv.2.1, by omega, by omega, rfl⟩
      | none =>
        rw [htc] at h
        cases hfb : fallbackSearch (pyStrip s).toList with
        | none => rw [hfb] at h; exact absurd h (by simp)
        | some t =>
          rw [hfb] at h
          cases h
          have hb := fallbackSearch_bounds (pyStrip s).toList t hfb
          refine ⟨t.1, t.2.1, t.2.2, by omega, by omega, hb.2.2.1, hb.2.2.2, ?_⟩
          rw [pad4_eq_toString t.1 (by omega)]
  · intro s
    unfold format_date
    by_cases hc : pyStrip s = ""
    · simp [hc]
    · rw [if_neg hc]
      cases htc : tryCandidates dateCandidates (pyStrip s) with
      | some pd => simp [htc, hc]
      | none =>
        cases hfb : fallbackSearch (pyStrip s).toList with
        | some t => simp [htc, hfb, hc]
        | none => simp [htc, hfb, hc]

/-- Claim C5 (amended), witness at concrete inputs. -/
theorem C5_amended_witness :
    ruleDelete ["a", "b"] "rule_2" "" = ["a", "b"] ∧
      profileOpStep ["p"] { type := "delete", profile_id := "profile_1" } = ["p"] ∧
      (∀ l : List String, 2 < l.length →
        ruleOpStep l { type := "delete", rule_id := "rule_2" } = l.eraseIdx 2) ∧
      (∀ l : List String, 2 + 1 = l.length →
        ruleOpStep (ruleOpStep l { type := "delete", rule_id := "rule_2" })
          { type := "delete", rule_id := "rule_2" } = l.eraseIdx 2) ∧
      (∀ l : List String, 2 + 1 < l.length →
        ruleOpStep (ruleOpStep l { type := "delete", rule_id := "rule_2" })
            { type := "delete", rule_id := "rule_2" } = (l.eraseIdx 2).eraseIdx 2 ∧
          (l.eraseIdx 2)[2]? = l[2 + 1]?) :=
  C5_amended ["a", "b"] ["p"] "rule_2" "profile_1" 2 1 (by decide) (by decide)
    (by decide) (by decide) (by decide) (by decide)

/-- Claim C3, counterexample.  The claim says a failure of the
text-classification call aborts the whole pipeline run.  It is false: the
stage function catches the exception itself and returns a default
classification, so the run still succeeds. -/
theorem C3_counterexample :
    (process_upload
        { transcribe := Except.ok "",
          check_response := Except.ok (some true, some "是票据"),
          recognize_response := Except.ok "票据内容",
          classify_response := Except.error "分类调用失败",
          intent_response := Except.error "意图调用失败",
          tag_response := Except.ok {},
          structure_response := Except.ok (some []) }
        "u1" "img.jpg" (some "用户备注") false).1.success = true := by
  decide

/-- Claim C3 (amended): the stage-4 asymmetry lives only in the gather
handler — `fanOutHandle` re-raises a classification-task exception and
absorbs an intent-task exception to "no intent" — but both stage functions
catch their model-call failures internally, so neither call's failure ever
reaches that handler: with both calls failing the run still succeeds, the
classification degrades to the default 小票/其他支出 result, and the
intent degrades to an empty intent record (not to `None`). -/
theorem C3_amended (env : ModelEnv) (uid img t r ce ie : String)
    (ht : t ≠ "")
    (hcheck : env.check_response = Except.ok (some true, some r))
    (hcls : env.classify_response = Except.error ce)
    (hint : env.intent_response = Except.error ie)
    (hstruct : ∃ sd, env.structure_response = Except.ok sd) :
    (process_upload env uid img (some t) false).1.success = true ∧
      (process_upload env uid img (some t) false).1.intent =
        some { analysis := "", key_information := "",
               has_explicit_classification := false } ∧
      ((process_upload env uid img (some t) false).1.recognition).map
          (fun rec => rec.document_type) = some (some "小票") ∧
      classify_document_with_text env =
        { status := false, professional_category := "小票",
          user_category := "其他支出", tags := [],
          reasoning := "分类失败，使用默认值: " ++ ce } ∧
      (∀ (c : ClassificationR) (i : String),
        fanOutHandle (Except.ok c) (Except.error i) = Except.ok (c, none)) ∧
      (∀ (e : String) (it : Except String IntentR),
        fanOutHandle (Except.error e) it = Except.error e) := by
  obtain ⟨sd, hsd⟩ := hstruct
  have hcls' : classify_document_with_text env =
      { status := false, professional_category := "小票",
        user_category := "其他支出", tags := [],
        reasoning := "分类失败，使用默认值: " ++ ce } := by
    unfold classify_document_with_text
    rw [hcls]
  have hint' : parse_user_intent env =
      { analysis := "", key_information := "",
        has_explicit_classification := false } := by
    unfold parse_user_intent
    rw [hint]
  have hp : check_if_document env = (true, r) := by
    unfold check_if_document
    rw [hcheck]
    rfl
  have hss : structure_document env = Except.ok (sd.getD []) := by
    unfold structure_document
    rw [hsd]
  have hrun : process_upload env uid img (some t) false =
      processFromCheck env uid img (some t) [] := by
    unfold process_upload
    rw [if_neg]
    simp
  have htt : optTruthy (some t) = true := by simp [optTruthy, ht]
  rw [hrun]
  simp only [processFromCheck, hp, htt, hcls', hint', hss, fanOutHandle]
  simp [fanOutHandle]

/-- Claim C3 (amended), witness at a concrete input. -/
theorem C3_amended_witness :
    (process_upload
        { transcribe := Except.ok "",
          check_response := Except.ok (some true, some "ok"),
          recognize_response := Except.ok "文本",
          classify_response := Except.error "cls失败",
          intent_response := Except.error "intent失败",
          tag_response := Except.ok {},
          structure_response := Except.ok none }
        "u" "i.jpg" (some "备注") false).1.success = true ∧
      (process_upload
        { transcribe := Except.ok "",
          check_response := Except.ok (some true, some "ok"),
          recognize_response := Except.ok "文本",
          classify_response := Except.error "cls失败",
          intent_response := Except.error "intent失败",
          tag_response := Except.ok {},
          structure_response := Except.ok none }
        "u" "i.jpg" (some "备注") false).1.intent =
        some { analysis := "", key_information := "",
               has_explicit_classification := false } ∧
      ((process_upload
        { transcribe := Except.ok "",
          check_response := Except.ok (some true, some "ok"),
          recognize_response := Except.ok "文本",
          classify_response := Except.error "cls失败",
          intent_response := Except.error "intent失败",
          tag_response := Except.ok {},
          structure_response := Except.ok none }
        "u" "i.jpg" (some "备注") false).1.recognition).map
          (fun rec => rec.document_type) = some (some "小票") ∧
      classify_document_with_text
        { transcribe := Except.ok "",
          check_response := Except.ok (some true, some "ok"),
          recognize_response := Except.ok "文本",
          classify_response := Except.error "cls失败",
          intent_response := Except.error "intent失败",
          tag_response := Except.ok {},
          structure_response := Except.ok none } =
        { status := false, professional_category := "小票",
          user_category := "其他支出", tags := [],
          reasoning := "分类失败，使用默认值: " ++ "cls失败" } ∧
      (∀ (c : ClassificationR) (i : String),
        fanOutHandle (Except.ok c) (Except.error i) = Except.ok (c, none)) ∧
      (∀ (e : String) (it : Except String IntentR),
        fanOutHandle (Except.error e) it = Except.error e) :=
  C3_amended
    { transcribe := Except.ok "",
      check_response := Except.ok (some true, some "ok"),
      recognize_response := Except.ok "文本",
      classify_response := Except.error "cls失败",
      intent_response := Except.error "intent失败",
      tag_response := Except.ok {},
      structure_response := Except.ok none }
    "u" "i.jpg" "备注" "ok" "cls失败" "intent失败" (by decide) rfl rfl rfl
    ⟨none, rfl⟩

/-- Claim C4: when the relevance check parses `is_document = false`, the
run returns the distinguished invalid-image failure (success `false`,
`is_invalid_image = true`, the "not a receipt" message) and the trace of
issued model calls ends at the relevance check: recognition,
classification, intent, tagging and structuring are never called. -/
theorem C4_invalid_image (env : ModelEnv) (uid img : String)
    (text0 : Option String) (has_audio : Bool) (r : String)
    (hcheck : env.check_response = Except.ok (some false, some r))
    (hreach : has_audio = false ∨ optTruthy text0 = true ∨
      ∃ ta, env.transcribe = Except.ok ta) :
    (process_upload env uid img text0 has_audio).1 =
        { success := false, error := some ("上传的图片不是票据: " ++ r),
          is_invalid_image := true } ∧
      ((process_upload env uid img text0 has_audio).2 = [MCall.checkVision] ∨
        (process_upload env uid img text0 has_audio).2 =
          [MCall.transcribeAudio, MCall.checkVision]) ∧
      MCall.recognizeVision ∉ (process_upload env uid img text0 has_audio).2 ∧
      MCall.classifyText ∉ (process_upload env uid img text0 has_audio).2 ∧
      MCall.intentText ∉ (process_upload env uid img text0 has_audio).2 ∧
      MCall.tagText ∉ (process_upload env uid img text0 has_audio).2 ∧
      MCall.structureText ∉ (process_upload env uid img text0 has_audio).2 := by
  have hp : check_if_document env = (false, r) := by
    unfold check_if_document
    rw [hcheck]
    rfl
  have hshort : ∀ calls0 : List MCall,
      processFromCheck env uid img text0 calls0 =
        ({ success := false, error := some ("上传的图片不是票据: " ++ r),
           is_invalid_image := true }, calls0 ++ [MCall.checkVision]) := by
    intro calls0
    unfold processFromCheck
    rw [hp]
    rw [if_pos (by simp)]
  by_cases hcond : has_audio = true ∧ ¬ optTruthy text0 = true
  · obtain ⟨ta, hta⟩ : (∃ ta, env.transcribe = Except.ok ta) := by
      rcases hreach with h1 | h1 | h1
      · rw [h1] at hcond
        exact absurd hcond.1 (by simp)
      · exact absurd h1 hcond.2
      · exact h1
    have hrun : process_upload env uid img text0 has_audio =
        processFromCheck env uid img (some ta) [MCall.transcribeAudio] := by
      unfold process_upload
      rw [if_pos hcond, hta]
    have hshort2 : ∀ calls0 : List MCall,
        processFromCheck env uid img (some ta) calls0 =
          ({ success := false, error := some ("上传的图片不是票据: " ++ r),
             is_invalid_image := true }, calls0 ++ [MCall.checkVision]) := by
      intro calls0
      unfold processFromCheck
      rw [hp]
      rw [if_pos (by simp)]
    rw [hrun, hshort2]
    refine ⟨rfl, Or.inr rfl, ?_, ?_, ?_, ?_, ?_⟩ <;> simp
  · have hrun : process_upload env uid img text0 has_audio =
        processFromCheck env uid img text0 [] := by
      unfold process_upload
      rw [if_neg hcond]
    rw [hrun, hshort]
    refine ⟨rfl, Or.inl rfl, ?_, ?_, ?_, ?_, ?_⟩ <;> simp

/-- Claim C4, witness at a concrete input. -/
theorem C4_invalid_image_witness :
    (process_upload
        { transcribe := Except.ok "",
          check_response := Except.ok (some false, some "这是风景照"),
          recognize_response := Except.ok "",
          classify_response := Except.ok {},
          intent_response := Except.ok {},
          tag_response := Except.ok {},
          structure_response := Except.ok none }
        "u" "i.jpg" none false).1 =
        { success := false,
          error := some ("上传的图片不是票据: " ++ "这是风景照"),
          is_invalid_image := true } ∧
      ((process_upload
        { transcribe := Except.ok "",
          check_response := Except.ok (some false, some "这是风景照"),
          recognize_response := Except.ok "",
          classify_response := Except.ok {},
          intent_response := Except.ok {},
          tag_response := Except.ok {},
          structure_response := Except.ok none }
        "u" "i.jpg" none false).2 = [MCall.checkVision] ∨
        (process_upload
        { transcribe := Except.ok "",
          check_response := Except.ok (some false, some "这是风景照"),
          recognize_response := Except.ok "",
          classify_response := Except.ok {},
          intent_response := Except.ok {},
          tag_response := Except.ok {},
          structure_response := Except.ok none }
        "u" "i.jpg" none false).2 =
          [MCall.transcribeAudio, MCall.checkVision]) ∧
      MCall.recognizeVision ∉ (process_upload
        { transcribe := Except.ok "",
          check_response := Except.ok (some false, some "这是风景照"),
          recognize_response := Except.ok "",
          classify_response := Except.ok {},
          intent_response := Except.ok {},
          tag_response := Except.ok {},
          structure_response := Except.ok none }
        "u" "i.jpg" none false).2 ∧
      MCall.classifyText ∉ (process_upload
        { transcribe := Except.ok "",
          check_response := Except.ok (some false, some "这是风景照"),
          recognize_response := Except.ok "",
          classify_response := Except.ok {},
          intent_response := Except.ok {},
          tag_response := Except.ok {},
          structure_response := Except.ok none }
        "u" "i.jpg" none false).2 ∧
      MCall.intentText ∉ (process_upload
        { transcribe := Except.ok "",
          check_response := Except.ok (some false, some "这是风景照"),
          recognize_response := Except.ok "",
          classify_response := Except.ok {},
          intent_response := Except.ok {},
          tag_response := Except.ok {},
          structure_response := Except.ok none }
        "u" "i.jpg" none false).2 ∧
      MCall.tagText ∉ (process_upload
        { transcribe := Except.ok "",
          check_response := Except.ok (some false, some "这是风景照"),
          recognize_response := Except.ok "",
          classify_response := Except.ok {},
          intent_response := Except.ok {},
          tag_response := Except.ok {},
          structure_response := Except.ok none }
        "u" "i.jpg" none false).2 ∧
      MCall.structureText ∉ (process_upload
        { transcribe := Except.ok "",
          check_response := Except.ok (some false, some "这是风景照"),
          recognize_response := Except.ok "",
          classify_response := Except.ok {},
          intent_response := Except.ok {},
          tag_response := Except.ok {},
          structure_response := Except.ok none }
        "u" "i.jpg" none false).2 :=
  C4_invalid_image
    { transcribe := Except.ok "",
      check_response := Except.ok (some false, some "这是风景照"),
      recognize_response := Except.ok "",
      classify_response := Except.ok {},
      intent_response := Except.ok {},
      tag_response := Except.ok {},
      structure_response := Except.ok none }
    "u" "i.jpg" none false "这是风景照" rfl (Or.inl rfl)

/-- Claim C10: when the relevance-check call raises, `_check_if_document`
catches the exception and returns `(False, "判断异常: ...")`, so
`process_upload` behaves exactly as if the model had answered
`is_document = false` with that reason: the whole run (result and call
trace) is identical to the genuine-false run, and at the `ProcessResult`
interface the crash is flagged `is_invalid_image = true` — indistinguishable
from "not a receipt". -/
theorem C10_crashed_check (env : ModelEnv) (uid img : String)
    (text0 : Option String) (has_audio : Bool) (e : String)
    (hcheck : env.check_response = Except.error e)
    (hreach : has_audio = false ∨ optTruthy text0 = true ∨
      ∃ ta, env.transcribe = Except.ok ta) :
    process_upload env uid img text0 has_audio =
        process_upload
          { env with check_response :=
              Except.ok (some false, some ("判断异常: " ++ e)) }
          uid img text0 has_audio ∧
      (process_upload env uid img text0 has_audio).1.is_invalid_image = true ∧
      (process_upload env uid img text0 has_audio).1.success = false ∧
      (process_upload env uid img text0 has_audio).1.error =
        some ("上传的图片不是票据: " ++ ("判断异常: " ++ e)) := by
  have hp : check_if_document env = (false, "判断异常: " ++ e) := by
    unfold check_if_document
    rw [hcheck]
  have hshort : ∀ (calls0 : List MCall) (txt : Option String),
      processFromCheck env uid img txt calls0 =
        ({ success := false,
           error := some ("上传的图片不是票据: " ++ ("判断异常: " ++ e)),
           is_invalid_image := true }, calls0 ++ [MCall.checkVision]) := by
    intro calls0 txt
    unfold processFromCheck
    rw [hp]
    rw [if_pos (by simp)]
  have hres : process_upload env uid img text0 has_audio =
      ({ success := false,
         error := some ("上传的图片不是票据: " ++ ("判断异常: " ++ e)),
         is_invalid_image := true },
        (if has_audio ∧ ¬ optTruthy text0 then [MCall.transcribeAudio] else []) ++
          [MCall.checkVision]) := by
    unfold process_upload
    by_cases hcond : has_audio = true ∧ ¬ optTruthy text0 = true
    · obtain ⟨ta, hta⟩ : (∃ ta, env.transcribe = Except.ok ta) := by
        rcases hreach with h1 | h1 | h1
        · rw [h1] at hcond
          exact absurd hcond.1 (by simp)
        · exact absurd h1 hcond.2
        · exact h1
      rw [if_pos hcond, if_pos hcond, hta]
      exact hshort [MCall.transcribeAudio] (some ta)
    · rw [if_neg hcond, if_neg hcond]
      exact hshort [] text0
  refine ⟨?_, by rw [hres], by rw [hres], by rw [hres]⟩
  have hfc : ∀ (calls0 : List MCall) (txt : Option String),
      processFromCheck env uid img txt calls0 =
        processFromCheck
          { env with check_response :=
              Except.ok (some false, some ("判断异常: " ++ e)) }
          uid img txt calls0 := by
    intro calls0 txt
    unfold processFromCheck
    rw [hp]
    have hp2 : check_if_document { env with check_response := Except.ok (some false, some ("判断异常: " ++ e)) } = (false, "判断异常: " ++ e) := rfl
    rw [hp2]
    rw [if_pos (by simp), if_pos (by simp)]
  unfold process_upload
  by_cases hcond : has_audio = true ∧ ¬ optTruthy text0 = true
  · rw [if_pos hcond, if_pos hcond]
    have htr : ({ env with check_response := Except.ok (some false, some ("判断异常: " ++ e)) } : ModelEnv).transcribe = env.transcribe := rfl
    rw [htr]
    cases env.transcribe with
    | error e2 => rfl
    | ok ta => exact hfc [MCall.transcribeAudio] (some ta)
  · rw [if_neg hcond, if_neg hcond]
    exact hfc [] text0

/-- Claim C10, witness at a concrete input. -/
theorem C10_crashed_check_witness :
    process_upload
        { transcribe := Except.ok "",
          check_response := Except.error "网络超时",
          recognize_response := Except.ok "",
          classify_response := Except.ok {},
          intent_response := Except.ok {},
          tag_response := Except.ok {},
          structure_response := Except.ok none }
        "u" "i.jpg" none false =
        process_upload
          { transcribe := Except.ok "",
            check_response := Except.ok (some false, some ("判断异常: " ++ "网络超时")),
            recognize_response := Except.ok "",
            classify_response := Except.ok {},
            intent_response := Except.ok {},
            tag_response := Except.ok {},
            structure_response := Except.ok none }
          "u" "i.jpg" none false ∧
      (process_upload
        { transcribe := Except.ok "",
          check_response := Except.error "网络超时",
          recognize_response := Except.ok "",
          classify_response := Except.ok {},
          intent_response := Except.ok {},
          tag_response := Except.ok {},
          structure_response := Except.ok none }
        "u" "i.jpg" none false).1.is_invalid_image = true ∧
      (process_upload
        { transcribe := Except.ok "",
          check_response := Except.error "网络超时",
          recognize_response := Except.ok "",
          classify_response := Except.ok {},
          intent_response := Except.ok {},
          tag_response := Except.ok {},
          structure_response := Except.ok none }
        "u" "i.jpg" none false).1.success = false ∧
      (process_upload
        { transcribe := Except.ok "",
          check_response := Except.error "网络超时",
          recognize_response := Except.ok "",
          classify_response := Except.ok {},
          intent_response := Except.ok {},
          tag_response := Except.ok {},
          structure_response := Except.ok none }
        "u" "i.jpg" none false).1.error =
        some ("上传的图片不是票据: " ++ ("判断异常: " ++ "网络超时")) :=
  C10_crashed_check
    { transcribe := Except.ok "",
          check_response := Except.error "网络超时",
          recognize_response := Except.ok "",
          classify_response := Except.ok {},
          intent_response := Except.ok {},
          tag_response := Except.ok {},
          structure_response := Except.ok none }
    "u" "i.jpg" none false "网络超时" rfl (Or.inl rfl)

end FinComp
